import Mathlib

/-!
Verification development for the APx-10ginit repository (10ginit.cpp, mdio.cpp).

The development shallowly embeds the pure computations of the program
(MAC formatting, MAC parsing, MAC validation, MDIO configuration-string
parsing, MDIO address-word packing) as executable Lean functions, and the
effectful paths (the MDIO transaction engine and the main program flow)
as functions over explicit oracles that give the result of each external
call (memory-mapped register reads and writes, GPIO calls, I2C transfers)
in call order.  Machine integers are modelled as Nat with explicit masking
where the source masks; uint8_t values carry a side condition of being
below 256 where needed.
-/

set_option maxRecDepth 4000

namespace TenGInit

/-! ## MAC formatting (10ginit.cpp, format_mac, lines 31-36)

The C function renders the six bytes with snprintf "%02hhx:...".  For a
byte below 256 this is exactly two lowercase hex digits per octet joined
by colons, 17 characters in total, and the defensive length check never
fires. -/

/-- A 6-octet MAC address buffer (uint8_t macbuf[6] in the source).
Each field models one uint8_t, so it is meaningful only below 256. -/
structure Mac where
  b0 : Nat
  b1 : Nat
  b2 : Nat
  b3 : Nat
  b4 : Nat
  b5 : Nat
deriving DecidableEq, Repr

/-- All six octets are in uint8_t range. -/
def Mac.valid (m : Mac) : Prop :=
  m.b0 < 256 ∧ m.b1 < 256 ∧ m.b2 < 256 ∧ m.b3 < 256 ∧ m.b4 < 256 ∧ m.b5 < 256

instance (m : Mac) : Decidable m.valid := by
  unfold Mac.valid
  infer_instance

/-- Lowercase hex digit for a nibble, as printf %x renders it. -/
def hexDigitChar (n : Nat) : Char :=
  if n < 10 then Char.ofNat (48 + n) else Char.ofNat (87 + n)

/-- Two-digit lowercase hex rendering of one byte (printf %02hhx). -/
def byteHex (b : Nat) : List Char :=
  [hexDigitChar (b / 16), hexDigitChar (b % 16)]

/-- The character list produced by format_mac: six %02hhx groups joined
by colons. -/
def formatMacL (m : Mac) : List Char :=
  byteHex m.b0 ++ (':' :: (byteHex m.b1 ++ (':' :: (byteHex m.b2 ++
    (':' :: (byteHex m.b3 ++ (':' :: (byteHex m.b4 ++ (':' :: byteHex m.b5)))))))))

/-- format_mac as a Lean String (the C function returns std::string). -/
def format_mac (m : Mac) : String :=
  ⟨formatMacL m⟩

/-! ## MAC parsing (10ginit.cpp line 229)

The store path parses the user MAC with
sscanf(s, "%hhx:%hhx:%hhx:%hhx:%hhx:%hhx", ...) and requires 6
conversions.  Each %hhx skips leading whitespace, consumes a maximal
nonempty run of hex digits and stores the value truncated to 8 bits;
each literal colon must match the next character exactly (no whitespace
skip before a non-space literal).  The optional sign and 0x-prefix forms
that scanf also accepts in a hex subject sequence never occur in any
input relevant here and are not modelled. -/

/-- Characters accepted by a scanf whitespace directive (isspace). -/
def isWsChar (c : Char) : Bool :=
  c.toNat = 32 || (9 ≤ c.toNat && c.toNat ≤ 13)

/-- Hex digit recognition, as in a scanf %x subject sequence. -/
def isHexDig (c : Char) : Bool :=
  ('0' ≤ c && c ≤ '9') || ('a' ≤ c && c ≤ 'f') || ('A' ≤ c && c ≤ 'F')

/-- Numeric value of a hex digit character. -/
def hexVal (c : Char) : Nat :=
  if c ≤ '9' then c.toNat - 48
  else if c ≤ 'F' then c.toNat - 55
  else c.toNat - 87

/-- Accumulate the value of a digit run, most significant first. -/
def hexRunVal (ds : List Char) : Nat :=
  ds.foldl (fun a c => 16 * a + hexVal c) 0

/-- One %hhx conversion: skip whitespace, read a maximal nonempty hex
digit run, store its value mod 256; fail when no digit is present. -/
def scanOctet (s : List Char) : Option (Nat × List Char) :=
  let s1 := s.dropWhile isWsChar
  let ds := s1.takeWhile isHexDig
  if ds.isEmpty then none
  else some (hexRunVal ds % 256, s1.dropWhile isHexDig)

/-- A literal (non-whitespace) character directive of scanf: the next
input character must be exactly c. -/
def expectChar (c : Char) : List Char → Option (List Char)
  | [] => none
  | x :: xs => if x = c then some xs else none

/-- The MAC-parsing routine of the store path: six %hhx conversions
separated by literal colons; any failure means sscanf returned fewer
than 6 and the program rejects the input. -/
def parse_mac (s : List Char) : Option Mac := do
  let (a0, r) ← scanOctet s
  let r ← expectChar ':' r
  let (a1, r) ← scanOctet r
  let r ← expectChar ':' r
  let (a2, r) ← scanOctet r
  let r ← expectChar ':' r
  let (a3, r) ← scanOctet r
  let r ← expectChar ':' r
  let (a4, r) ← scanOctet r
  let r ← expectChar ':' r
  let (a5, _) ← scanOctet r
  pure ⟨a0, a1, a2, a3, a4, a5⟩

/-! ## MAC validation (10ginit.cpp, validate_mac_address, lines 63-87) -/

/-- validate_mac_address.  The warn flag only controls a diagnostic
message in the source and has no effect on the result; it is kept for
fidelity to the signature.  String comparisons of the source are kept
as character-list comparisons; substr(0, n) is List.take n. -/
def validate_mac_address (pfx : List Char) (macbuf : Mac) (warn : Bool) : Bool :=
  if pfx.length = 0 then
    true
  else
    if formatMacL macbuf = "00:00:00:00:00:00".data then false
    else if formatMacL macbuf = "ff:ff:ff:ff:ff:ff".data then false
    else if macbuf.b0 &&& 0x01 ≠ 0 then false
    else if (formatMacL macbuf).take pfx.length ≠ pfx then false
    else true

/-! ## MDIO configuration parsing (10ginit.cpp, parse_mdio_writes, lines 47-61)

The loop repeatedly applies sscanf(rest, " %d.%d:%x=%x %n", ...) to the
remaining suffix; on fewer than 4 conversions it breaks, otherwise it
records the operation and advances by the character count stored by %n
(which includes the trailing whitespace directive).  Advancing by the
consumed count is modelled by returning the remaining suffix.  The %d
conversion skips whitespace, accepts an optional sign and a nonempty
decimal digit run, and stores through a uint32_t pointer (value mod
2^32, two-complement for a negative sign); the %x conversion likewise
accepts an optional sign and an optional 0x prefix before a nonempty
hex digit run. -/

/-- One MDIO write request parsed from the configuration string
(class MDIO_Operation in the source; all fields uint32_t). -/
structure MDIO_Operation where
  port : Nat
  dev : Nat
  reg : Nat
  val : Nat
deriving DecidableEq, Repr

/-- Decimal digit recognition. -/
def isDecDig (c : Char) : Bool :=
  '0' ≤ c && c ≤ '9'

/-- Value of a decimal digit run, most significant first. -/
def decRunVal (ds : List Char) : Nat :=
  ds.foldl (fun a c => 10 * a + (c.toNat - 48)) 0

/-- Optional sign of a scanf numeric subject sequence: returns whether a
minus was consumed, and the rest. -/
def scanSign : List Char → Bool × List Char
  | '-' :: t => (true, t)
  | '+' :: t => (false, t)
  | s => (false, s)

/-- One %d conversion stored through a uint32_t pointer. -/
def scanDec (s : List Char) : Option (Nat × List Char) :=
  let s1 := s.dropWhile isWsChar
  let (neg, s2) := scanSign s1
  let ds := s2.takeWhile isDecDig
  if ds.isEmpty then none
  else
    let v := decRunVal ds % 2 ^ 32
    some ((if neg then (2 ^ 32 - v) % 2 ^ 32 else v), s2.dropWhile isDecDig)

/-- One %x conversion stored through a uint32_t pointer. -/
def scanHex32 (s : List Char) : Option (Nat × List Char) :=
  let s1 := s.dropWhile isWsChar
  let (neg, s2) := scanSign s1
  let s3 :=
    match s2 with
    | '0' :: c :: d :: t => if (c = 'x' || c = 'X') && isHexDig d then d :: t else s2
    | _ => s2
  let ds := s3.takeWhile isHexDig
  if ds.isEmpty then none
  else
    let v := hexRunVal ds % 2 ^ 32
    some ((if neg then (2 ^ 32 - v) % 2 ^ 32 else v), s3.dropWhile isHexDig)

/-- One application of sscanf(rest, " %d.%d:%x=%x %n"): all four
conversions must succeed; the trailing whitespace directive before %n is
consumed.  Returns the parsed operation and the remaining suffix. -/
def scanMdioTok (s : List Char) : Option (MDIO_Operation × List Char) := do
  let (port, r) ← scanDec s
  let r ← expectChar '.' r
  let (dev, r) ← scanDec r
  let r ← expectChar ':' r
  let (reg, r) ← scanHex32 r
  let r ← expectChar '=' r
  let (val, r) ← scanHex32 r
  pure (⟨port, dev, reg, val⟩, r.dropWhile isWsChar)

/-- The scanning loop of parse_mdio_writes, with fuel bounding the
iteration count (each successful token consumes at least one character,
so fuel equal to the string length plus one never runs out before the
loop condition or a failed scan stops it). -/
def parseMdioLoop : Nat → List Char → List MDIO_Operation
  | 0, _ => []
  | _, [] => []
  | fuel + 1, s =>
    match scanMdioTok s with
    | none => []
    | some (op, rest) => op :: parseMdioLoop fuel rest

/-- parse_mdio_writes: scan whitespace-separated port.dev:reg=val tokens
until the string is exhausted or a token fails to parse. -/
def parse_mdio_writes (s : List Char) : List MDIO_Operation :=
  parseMdioLoop (s.length + 1) s

/-! ## MDIO address-word packing (mdio.cpp, lines 20-49) -/

def MDIO_OP_ADDR : Nat := 0
def MDIO_OP_WR : Nat := 1
def MDIO_OP_RD : Nat := 3

def MDIO_ADDRESS1_OFFSET : Nat := 0x00
def MDIO_ADDRESS2_OFFSET : Nat := 0x04
def MDIO_WRITE_BUF_OFFSET : Nat := 0x08
def MDIO_READ_BUF_OFFSET : Nat := 0x0c
def MDIO_CTRL_REG_OFFSET : Nat := 0x10

def MDIO_CTRL_ENA_BIT : Nat := 0x8
def MDIO_CTRL_REQ_BUSY_BIT : Nat := 0x1

/-- The MDIO_ADDR1 macro: opcode masked to 2 bits at bit 10, port masked
to 5 bits at bit 5, device masked to 5 bits at bit 0, combined by
addition as in the source. -/
def MDIO_ADDR1 (OPCODE PORT DEVICE : Nat) : Nat :=
  ((OPCODE &&& 0x3) <<< 10) + ((PORT &&& 0x1f) <<< 5) + ((DEVICE &&& 0x1f) <<< 0)

def MDIO_STATUS_POLL_LIMIT : Nat := 100
def MDIO_STATUS_POLL_DELAY : Nat := 10000

/-! ## MDIO transaction engine (mdio.cpp, lines 51-183)

The engine is embedded over an oracle giving the result of each
easymem_safewrite32 and easymem_saferead32 on the MDIO register region,
in call order: writeOk n is whether the n-th write succeeds, readVal n
is the value delivered by the n-th read (none for a failed read).  The
engine state carries the two call counters, the number of poll-loop
sleeps performed (the unconditional usleep calls between setup writes
are not counted; only the sleep inside the busy-poll loop is), and a
log of the attempted register writes as (offset, value) pairs. -/

structure DevOracle where
  writeOk : Nat → Bool
  readVal : Nat → Option Nat

structure PhyState where
  wc : Nat
  rc : Nat
  psleeps : Nat
  log : List (Nat × Nat)
deriving Repr, DecidableEq

/-- The fresh state at the start of a transaction. -/
def PhyState.init : PhyState :=
  ⟨0, 0, 0, []⟩

/-- Outcome of the busy-poll loop shared verbatim by the three phases
(mdio.cpp lines 77-88, 123-132, 165-174, which are textually identical
in the source): cleared means the break on a clear busy bit, readErr
a failed control-register read, timeout the loop running to
MDIO_STATUS_POLL_LIMIT with the busy bit set on every poll.  Each
outcome reports the read counter afterwards and the number of
MDIO_STATUS_POLL_DELAY sleeps performed. -/
inductive BusyRes where
  | cleared (rc sleeps : Nat)
  | readErr (rc sleeps : Nat)
  | timeout (rc sleeps : Nat)
deriving Repr, DecidableEq

/-- The busy-poll loop: read the control register; abort on a transport
error; break when the REQ_BUSY bit is clear; otherwise sleep and poll
again, at most the given number of times. -/
def busyWait (o : DevOracle) : Nat → Nat → Nat → BusyRes
  | rc, 0, sleeps => .timeout rc sleeps
  | rc, fuel + 1, sleeps =>
    match o.readVal rc with
    | none => .readErr (rc + 1) sleeps
    | some v =>
      if v &&& MDIO_CTRL_REQ_BUSY_BIT = 0 then .cleared (rc + 1) sleeps
      else busyWait o (rc + 1) fuel (sleeps + 1)

/-- Result of one engine call: the C functions return 0 or -1; the
embedding additionally reports the final state and, on failure, whether
the failure was the poll timeout (as opposed to a transport error). -/
inductive PhyRes where
  | ok (st : PhyState)
  | fail (st : PhyState) (timedOut : Bool)
deriving Repr, DecidableEq

/-- One easymem_safewrite32 on the MDIO device: consumes one write
slot of the oracle and logs the attempted (offset, value). -/
def devWrite (o : DevOracle) (off v : Nat) (st : PhyState) : PhyState × Bool :=
  ({ st with wc := st.wc + 1, log := st.log ++ [(off, v)] }, o.writeOk st.wc)

/-- Folds the busy-poll outcome into the engine state. -/
def afterPoll (st : PhyState) : BusyRes → PhyRes
  | .cleared rc s => .ok { st with rc := rc, psleeps := st.psleeps + s }
  | .readErr rc s => .fail { st with rc := rc, psleeps := st.psleeps + s } false
  | .timeout rc s => .fail { st with rc := rc, psleeps := st.psleeps + s } true

/-- The address phase (mdio_phy_addr): write the opcode/port/device
word, the register address, and the control word, then busy-poll. -/
def mdio_phy_addr (o : DevOracle) (PortAddr DeviceAddr RegAddr : Nat) (st : PhyState) : PhyRes :=
  let (st, okw) := devWrite o MDIO_ADDRESS1_OFFSET (MDIO_ADDR1 MDIO_OP_ADDR PortAddr DeviceAddr) st
  if !okw then .fail st false else
  let (st, okw) := devWrite o MDIO_ADDRESS2_OFFSET RegAddr st
  if !okw then .fail st false else
  let (st, okw) := devWrite o MDIO_CTRL_REG_OFFSET (MDIO_CTRL_ENA_BIT ||| MDIO_CTRL_REQ_BUSY_BIT) st
  if !okw then .fail st false else
  afterPoll st (busyWait o st.rc MDIO_STATUS_POLL_LIMIT 0)

/-- The write operation (mdio_phy_write): address phase, then the write
data phase with its own identical busy-poll. -/
def mdio_phy_write (o : DevOracle) (PortAddr DeviceAddr RegAddr WriteBuf : Nat) (st : PhyState) : PhyRes :=
  match mdio_phy_addr o PortAddr DeviceAddr RegAddr st with
  | .fail st t => .fail st t
  | .ok st =>
    let (st, okw) := devWrite o MDIO_ADDRESS1_OFFSET (MDIO_ADDR1 MDIO_OP_WR PortAddr DeviceAddr) st
    if !okw then .fail st false else
    let (st, okw) := devWrite o MDIO_WRITE_BUF_OFFSET WriteBuf st
    if !okw then .fail st false else
    let (st, okw) := devWrite o MDIO_CTRL_REG_OFFSET (MDIO_CTRL_ENA_BIT ||| MDIO_CTRL_REQ_BUSY_BIT) st
    if !okw then .fail st false else
    afterPoll st (busyWait o st.rc MDIO_STATUS_POLL_LIMIT 0)

/-- The read operation (mdio_phy_read): address phase, then the read
data phase with its own identical busy-poll, then the read-buffer
fetch.  The second component is the value delivered on success. -/
def mdio_phy_read (o : DevOracle) (PortAddr DeviceAddr RegAddr : Nat) (st : PhyState) : PhyRes × Option Nat :=
  match mdio_phy_addr o PortAddr DeviceAddr RegAddr st with
  | .fail st t => (.fail st t, none)
  | .ok st =>
    let (st, okw) := devWrite o MDIO_ADDRESS1_OFFSET (MDIO_ADDR1 MDIO_OP_RD PortAddr DeviceAddr) st
    if !okw then (.fail st false, none) else
    let (st, okw) := devWrite o MDIO_CTRL_REG_OFFSET (MDIO_CTRL_ENA_BIT ||| MDIO_CTRL_REQ_BUSY_BIT) st
    if !okw then (.fail st false, none) else
    match afterPoll st (busyWait o st.rc MDIO_STATUS_POLL_LIMIT 0) with
    | .fail st t => (.fail st t, none)
    | .ok st =>
      match o.readVal st.rc with
      | none => (.fail { st with rc := st.rc + 1 } false, none)
      | some v => (.ok { st with rc := st.rc + 1 }, some v)

/-! ## The main program (10ginit.cpp, main, lines 89-357)

The flow after argument parsing is embedded as a function of the chosen
action, the two configuration strings the embedded code consumes, and
an environment of oracles giving the result of each external call in
call order.  The result records the process exit code, the last value
driven onto the reset GPIO line (none when the line was never driven),
the sequence of (offset, value) writes attempted on the 10GbE register
region, and the failure site (none on success).  Diagnostic printing,
the fixed settle sleeps, and the UNSAFE_REG32 diagnostic read in the
rollback path have no modelled effect. -/

def GBE_REG_USR_MAC_HIGH : Nat := 0x00
def GBE_REG_USR_MAC_LOW : Nat := 0x04
def GBE_REG_USR_IP : Nat := 0x08
def GBE_REG_TEST_REG : Nat := 0x0c
def GBE_REG_SYSTEM_MAC_HIGH : Nat := 0x10
def GBE_REG_SYSTEM_MAC_LOW : Nat := 0x14
def GBE_REG_USR_MAC_CFG : Nat := 0x18

/-- The selected action (enum at 10ginit.cpp lines 104-109; exactly one
must be chosen or main exits 1 during argument parsing, which is outside
this embedding). -/
inductive Action where
  | query
  | store (s : List Char)
  | init
deriving DecidableEq, Repr

/-- The configuration values consumed by the embedded flow:
config.mdio_reg_writes and config.valid_mac_address_prefix. -/
structure Config where
  mdioCfg : List Char
  macPfx : List Char

/-- Where a run stopped; mirrors the early-return sites of main in
source order. -/
inductive FailSite where
  | mapGbe
  | mapMdio
  | gpioPath
  | gpioChip
  | gpioLine
  | i2cOpen
  | eepromRead
  | queryInvalid
  | macParse
  | storeInvalid
  | eepromWrite
  | eepromVerifyRead
  | storeMismatch
  | gpioRequest
  | resetAssert
  | mdioWriteFail
  | initInvalid
  | writeMacHigh
  | writeMacLow
  | writeMacCfg
  | resetRelease
  | readbackHigh
  | readbackLow
  | rollback
  | rollbackAssert
deriving DecidableEq, Repr

/-- Result of one embedded run of main. -/
structure RunOut where
  exit : Nat
  reset : Option Nat
  gbeWrites : List (Nat × Nat)
  site : Option FailSite
deriving DecidableEq, Repr

/-- Oracles for every external call the flow can make, in call order
per resource.  eepromReadN and eepromRead2N are the byte counts
returned by the two i2c_read calls (6 on success), eepromWriteN by
i2c_write; eepromMac and eepromMac2 are the delivered bytes; setValOk n
is the result of the n-th gpiod_line_set_value call; gbeWriteOk n and
gbeReadVal n are the n-th easymem_safewrite32 / easymem_saferead32 on
the 10GbE region; mdio is the oracle of the MDIO region. -/
structure Env where
  gbeMapOk : Bool
  mdioMapOk : Bool
  realpathOk : Bool
  chipOpenOk : Bool
  lineGetOk : Bool
  i2cOpenOk : Bool
  eepromReadN : Nat
  eepromMac : Mac
  eepromWriteN : Nat
  eepromRead2N : Nat
  eepromMac2 : Mac
  lineReqOk : Bool
  setValOk : Nat → Bool
  mdio : DevOracle
  gbeWriteOk : Nat → Bool
  gbeReadVal : Nat → Option Nat

/-- The MAC register packing of main (lines 297-302): the high word
collects octets 0-3 shifted by 8*i, the low word octets 4-5 shifted by
8*(i-4), combined by bitwise or. -/
def mac_high_regval (m : Mac) : Nat :=
  m.b0 ||| (m.b1 <<< 8) ||| (m.b2 <<< 16) ||| (m.b3 <<< 24)

def mac_low_regval (m : Mac) : Nat :=
  m.b4 ||| (m.b5 <<< 8)

/-- The PHY configuration loop of main (lines 263-285): issue each
parsed operation in order through mdio_phy_write, aborting on the first
failure; the read-back diagnostic blocks are compiled out (#if 0). -/
def run_mdio_ops (o : DevOracle) : PhyState → List MDIO_Operation → PhyRes
  | st, [] => .ok st
  | st, op :: t =>
    match mdio_phy_write o op.port op.dev op.reg op.val st with
    | .fail st tf => .fail st tf
    | .ok st => run_mdio_ops o st t

/-- The DO_INITIALIZE branch of main (lines 249-354), entered with the
MAC bytes already read from the EEPROM. -/
def run_init (cfg : Config) (e : Env) (m : Mac) : RunOut :=
  if !e.lineReqOk then ⟨1, none, [], some .gpioRequest⟩ else
  -- gpiod_line_request_output succeeded with initial value 1: the line
  -- is driven asserted from here on.
  if !e.setValOk 0 then ⟨1, some 1, [], some .resetAssert⟩ else
  match run_mdio_ops e.mdio PhyState.init (parse_mdio_writes cfg.mdioCfg) with
  | .fail _ _ => ⟨1, some 1, [], some .mdioWriteFail⟩
  | .ok _ =>
  if !validate_mac_address cfg.macPfx m true then ⟨1, some 1, [], some .initInvalid⟩ else
  let hi := mac_high_regval m
  let lo := mac_low_regval m
  let w0 := [(GBE_REG_USR_MAC_HIGH, hi)]
  if !e.gbeWriteOk 0 then ⟨1, some 1, w0, some .writeMacHigh⟩ else
  let w1 := w0 ++ [(GBE_REG_USR_MAC_LOW, lo)]
  if !e.gbeWriteOk 1 then ⟨1, some 1, w1, some .writeMacLow⟩ else
  let w2 := w1 ++ [(GBE_REG_USR_MAC_CFG, 1)]
  if !e.gbeWriteOk 2 then ⟨1, some 1, w2, some .writeMacCfg⟩ else
  if !e.setValOk 1 then ⟨1, some 1, w2, some .resetRelease⟩ else
  -- reset is released from here on.
  match e.gbeReadVal 0 with
  | none => ⟨1, some 0, w2, some .readbackHigh⟩
  | some hi2 =>
  match e.gbeReadVal 1 with
  | none => ⟨1, some 0, w2, some .readbackLow⟩
  | some lo2 =>
  if hi ≠ hi2 ∨ (lo &&& 0xffff) ≠ (lo2 &&& 0xffff) then
    if !e.setValOk 2 then ⟨1, some 0, w2, some .rollbackAssert⟩
    else ⟨1, some 1, w2, some .rollback⟩
  else ⟨0, some 0, w2, none⟩

/-- The flow of main from the resource acquisitions (line 158) to the
end: both register-region mapping failures return 0 as in the source
(lines 162 and 173), every other failure returns 1; the 6-byte EEPROM
MAC read happens before the action dispatch for every action. -/
def main_run (cfg : Config) (act : Action) (e : Env) : RunOut :=
  if !e.gbeMapOk then ⟨0, none, [], some .mapGbe⟩ else
  if cfg.mdioCfg ≠ [] ∧ e.mdioMapOk = false then ⟨0, none, [], some .mapMdio⟩ else
  if !e.realpathOk then ⟨1, none, [], some .gpioPath⟩ else
  if !e.chipOpenOk then ⟨1, none, [], some .gpioChip⟩ else
  if !e.lineGetOk then ⟨1, none, [], some .gpioLine⟩ else
  if !e.i2cOpenOk then ⟨1, none, [], some .i2cOpen⟩ else
  if e.eepromReadN ≠ 6 then ⟨1, none, [], some .eepromRead⟩ else
  match act with
  | .query =>
    if !validate_mac_address cfg.macPfx e.eepromMac false then ⟨1, none, [], some .queryInvalid⟩
    else ⟨0, none, [], none⟩
  | .store s =>
    match parse_mac s with
    | none => ⟨1, none, [], some .macParse⟩
    | some m2 =>
      if !validate_mac_address cfg.macPfx m2 true then ⟨1, none, [], some .storeInvalid⟩ else
      if e.eepromWriteN ≠ 6 then ⟨1, none, [], some .eepromWrite⟩ else
      if e.eepromRead2N ≠ 6 then ⟨1, none, [], some .eepromVerifyRead⟩ else
      if e.eepromMac2 ≠ m2 then ⟨1, none, [], some .storeMismatch⟩ else
      ⟨0, none, [], none⟩
  | .init => run_init cfg e e.eepromMac

/-! ## Concrete test fixtures

Concrete configurations, oracles and environments used by the witness
and counterexample theorems below. -/

/-- The MAC address aa:bb:cc:dd:ee:ff of the end-to-end scenario. -/
def mac0 : Mac :=
  ⟨0xaa, 0xbb, 0xcc, 0xdd, 0xee, 0xff⟩

/-- Empty configuration: no MDIO writes, no MAC prefix policy. -/
def cfg0 : Config :=
  ⟨[], []⟩

/-- An MDIO device whose writes all succeed and whose reads all deliver
a clear busy bit. -/
def okOracle : DevOracle :=
  ⟨fun _ => true, fun _ => some 0⟩

/-- An MDIO device whose writes all succeed and whose reads all deliver
a set busy bit. -/
def busyOracle : DevOracle :=
  ⟨fun _ => true, fun _ => some 1⟩

/-- An all-good environment delivering mac0 from the EEPROM, with the
two 10GbE readback values supplied as parameters (none models a failed
easymem_saferead32). -/
def envRB (hiRd loRd : Option Nat) : Env :=
  ⟨true, true, true, true, true, true, 6, mac0, 6, 6, mac0, true,
    fun _ => true, okOracle, fun _ => true,
    fun n => if n = 0 then hiRd else loRd⟩

/-- The environment of a fully successful initialization run: the
readback delivers exactly the words the code programs. -/
def envOk : Env :=
  envRB (some 0xddccbbaa) (some 0xffee)

/-- envOk with the 10GbE register-region mapping failing. -/
def envNoGbeMap : Env :=
  { envOk with gbeMapOk := false }

/-- envOk with the MDIO register-region mapping failing. -/
def envNoMdioMap : Env :=
  { envOk with mdioMapOk := false }

/-- A configuration with one MDIO write and no MAC prefix policy. -/
def cfgMdio : Config :=
  ⟨"0.1:8000=4000".data, []⟩

/-- envOk with the first EEPROM read returning 0 bytes. -/
def envNoEeprom : Env :=
  { envOk with eepromReadN := 0 }

/-- envOk with the reset GPIO line request failing. -/
def envNoLineReq : Env :=
  { envOk with lineReqOk := false }

/-! # Helper lemmas -/

theorem and_three_eq_mod (n : Nat) : n &&& 3 = n % 4 := by
  have h := Nat.and_pow_two_sub_one_eq_mod n 2
  norm_num at h
  exact h

theorem and_thirtyone_eq_mod (n : Nat) : n &&& 31 = n % 32 := by
  have h := Nat.and_pow_two_sub_one_eq_mod n 5
  norm_num at h
  exact h

theorem and_one_eq_mod (n : Nat) : n &&& 1 = n % 2 := Nat.and_one_is_mod n

theorem hexPair_eq_zero : ∀ b : Fin 256,
    (hexDigitChar (b.val / 16) = '0' ∧ hexDigitChar (b.val % 16) = '0') ↔ b.val = 0 := by decide

theorem hexPair_eq_ff : ∀ b : Fin 256,
    (hexDigitChar (b.val / 16) = 'f' ∧ hexDigitChar (b.val % 16) = 'f') ↔ b.val = 255 := by decide

theorem fmac_eq_00 (m : Mac) (hm : m.valid) :
    formatMacL m = "00:00:00:00:00:00".data ↔ m = ⟨0, 0, 0, 0, 0, 0⟩ := by
  obtain ⟨b0, b1, b2, b3, b4, b5⟩ := m
  obtain ⟨h0, h1, h2, h3, h4, h5⟩ := hm
  have e0 := hexPair_eq_zero ⟨b0, h0⟩
  have e1 := hexPair_eq_zero ⟨b1, h1⟩
  have e2 := hexPair_eq_zero ⟨b2, h2⟩
  have e3 := hexPair_eq_zero ⟨b3, h3⟩
  have e4 := hexPair_eq_zero ⟨b4, h4⟩
  have e5 := hexPair_eq_zero ⟨b5, h5⟩
  simp only [Fin.val_mk] at e0 e1 e2 e3 e4 e5
  show formatMacL _ = ['0','0',':','0','0',':','0','0',':','0','0',':','0','0',':','0','0'] ↔ _
  simp only [formatMacL, byteHex, List.cons_append, List.nil_append, List.cons.injEq, and_true,
    true_and, Mac.mk.injEq]
  constructor
  · rintro ⟨a0, a0', a1, a1', a2, a2', a3, a3', a4, a4', a5, a5'⟩
    exact ⟨e0.mp ⟨a0, a0'⟩, e1.mp ⟨a1, a1'⟩, e2.mp ⟨a2, a2'⟩, e3.mp ⟨a3, a3'⟩,
      e4.mp ⟨a4, a4'⟩, e5.mp ⟨a5, a5'⟩⟩
  · rintro ⟨c0, c1, c2, c3, c4, c5⟩
    exact ⟨(e0.mpr c0).1, (e0.mpr c0).2, (e1.mpr c1).1, (e1.mpr c1).2, (e2.mpr c2).1,
      (e2.mpr c2).2, (e3.mpr c3).1, (e3.mpr c3).2, (e4.mpr c4).1, (e4.mpr c4).2,
      (e5.mpr c5).1, (e5.mpr c5).2⟩

theorem fmac_eq_ff (m : Mac) (hm : m.valid) :
    formatMacL m = "ff:ff:ff:ff:ff:ff".data ↔ m = ⟨255, 255, 255, 255, 255, 255⟩ := by
  obtain ⟨b0, b1, b2, b3, b4, b5⟩ := m
  obtain ⟨h0, h1, h2, h3, h4, h5⟩ := hm
  have e0 := hexPair_eq_ff ⟨b0, h0⟩
  have e1 := hexPair_eq_ff ⟨b1, h1⟩
  have e2 := hexPair_eq_ff ⟨b2, h2⟩
  have e3 := hexPair_eq_ff ⟨b3, h3⟩
  have e4 := hexPair_eq_ff ⟨b4, h4⟩
  have e5 := hexPair_eq_ff ⟨b5, h5⟩
  simp only [Fin.val_mk] at e0 e1 e2 e3 e4 e5
  show formatMacL _ = ['f','f',':','f','f',':','f','f',':','f','f',':','f','f',':','f','f'] ↔ _
  simp only [formatMacL, byteHex, List.cons_append, List.nil_append, List.cons.injEq, and_true,
    true_and, Mac.mk.injEq]
  constructor
  · rintro ⟨a0, a0', a1, a1', a2, a2', a3, a3', a4, a4', a5, a5'⟩
    exact ⟨e0.mp ⟨a0, a0'⟩, e1.mp ⟨a1, a1'⟩, e2.mp ⟨a2, a2'⟩, e3.mp ⟨a3, a3'⟩,
      e4.mp ⟨a4, a4'⟩, e5.mp ⟨a5, a5'⟩⟩
  · rintro ⟨c0, c1, c2, c3, c4, c5⟩
    exact ⟨(e0.mpr c0).1, (e0.mpr c0).2, (e1.mpr c1).1, (e1.mpr c1).2, (e2.mpr c2).1,
      (e2.mpr c2).2, (e3.mpr c3).1, (e3.mpr c3).2, (e4.mpr c4).1, (e4.mpr c4).2,
      (e5.mpr c5).1, (e5.mpr c5).2⟩

theorem hexDigit_facts : ∀ n : Fin 16,
    isHexDig (hexDigitChar n.val) = true ∧ isWsChar (hexDigitChar n.val) = false ∧
      hexVal (hexDigitChar n.val) = n.val := by decide

theorem scanOctet_byteHex (b : Nat) (hb : b < 256) (r : List Char)
    (hr : ∀ c, r.head? = some c → isHexDig c = false) :
    scanOctet (byteHex b ++ r) = some (b, r) := by
  have hdiv : b / 16 < 16 := by omega
  have hmod : b % 16 < 16 := Nat.mod_lt b (by norm_num)
  have f1 := hexDigit_facts ⟨b / 16, hdiv⟩
  have f2 := hexDigit_facts ⟨b % 16, hmod⟩
  simp only [Fin.val_mk] at f1 f2
  obtain ⟨f1h, f1w, f1v⟩ := f1
  obtain ⟨f2h, f2w, f2v⟩ := f2
  have htake : r.takeWhile isHexDig = [] := by
    cases r with
    | nil => rfl
    | cons c t => simp [List.takeWhile_cons, hr c rfl]
  have hdrop : r.dropWhile isHexDig = r := by
    cases r with
    | nil => rfl
    | cons c t => simp [List.dropWhile_cons, hr c rfl]
  unfold scanOctet byteHex
  simp only [List.cons_append, List.nil_append, List.dropWhile_cons, List.takeWhile_cons,
    f1w, f1h, f2h, htake, hdrop, Bool.false_eq_true, if_false, if_true]
  simp [hexRunVal, f1v, f2v]
  omega

theorem scanOctet_colon (b : Nat) (hb : b < 256) (r : List Char) :
    scanOctet (byteHex b ++ ':' :: r) = some (b, ':' :: r) := by
  apply scanOctet_byteHex b hb
  intro c hc
  simp at hc
  subst hc
  decide

theorem scanOctet_last (b : Nat) (hb : b < 256) :
    scanOctet (byteHex b) = some (b, []) := by
  have h := scanOctet_byteHex b hb [] (by intro c hc; cases hc)
  simpa using h

theorem busyWait_all_busy (o : DevOracle) (n : Nat) :
    ∀ rc s, (∀ i, i < n → ∃ v, o.readVal (rc + i) = some v ∧ v &&& MDIO_CTRL_REQ_BUSY_BIT ≠ 0) →
      busyWait o rc n s = .timeout (rc + n) (s + n) := by
  induction n with
  | zero => intro rc s _; simp [busyWait]
  | succ k ih =>
    intro rc s h
    obtain ⟨v, hv, hb⟩ := h 0 (by omega)
    rw [Nat.add_zero] at hv
    have hrec := ih (rc + 1) (s + 1) (fun i hi => by
      have hx := h (i + 1) (by omega)
      rwa [show rc + (i + 1) = rc + 1 + i by omega] at hx)
    rw [show rc + (k + 1) = rc + 1 + k by omega, show s + (k + 1) = s + 1 + k by omega]
    simp [busyWait, hv, hb, hrec]

theorem busyWait_first_clear (o : DevOracle) (rc s fuel v : Nat) (hf : fuel ≠ 0)
    (hv : o.readVal rc = some v) (hb : v &&& MDIO_CTRL_REQ_BUSY_BIT = 0) :
    busyWait o rc fuel s = .cleared (rc + 1) s := by
  cases fuel with
  | zero => exact absurd rfl hf
  | succ k => simp [busyWait, hv, hb]

theorem mdio_phy_addr_timeout (o : DevOracle) (p d r : Nat)
    (hw : ∀ i, o.writeOk i = true)
    (h : ∀ i, i < MDIO_STATUS_POLL_LIMIT →
      ∃ v, o.readVal i = some v ∧ v &&& MDIO_CTRL_REQ_BUSY_BIT ≠ 0) :
    mdio_phy_addr o p d r PhyState.init =
      .fail ⟨3, 100, 100, [(MDIO_ADDRESS1_OFFSET, MDIO_ADDR1 MDIO_OP_ADDR p d),
        (MDIO_ADDRESS2_OFFSET, r),
        (MDIO_CTRL_REG_OFFSET, MDIO_CTRL_ENA_BIT ||| MDIO_CTRL_REQ_BUSY_BIT)]⟩ true := by
  have hb := busyWait_all_busy o 100 0 0 (by
    intro i hi; simpa using h i hi)
  simp [mdio_phy_addr, devWrite, PhyState.init, hw, afterPoll, hb, MDIO_STATUS_POLL_LIMIT]

theorem mdio_phy_addr_immediate (o : DevOracle) (p d r v : Nat)
    (hw : ∀ i, o.writeOk i = true)
    (hv : o.readVal 0 = some v) (hc : v &&& MDIO_CTRL_REQ_BUSY_BIT = 0) :
    mdio_phy_addr o p d r PhyState.init =
      .ok ⟨3, 1, 0, [(MDIO_ADDRESS1_OFFSET, MDIO_ADDR1 MDIO_OP_ADDR p d),
        (MDIO_ADDRESS2_OFFSET, r),
        (MDIO_CTRL_REG_OFFSET, MDIO_CTRL_ENA_BIT ||| MDIO_CTRL_REQ_BUSY_BIT)]⟩ := by
  have hb := busyWait_first_clear o 0 0 100 v (by decide) hv hc
  simp [mdio_phy_addr, devWrite, PhyState.init, hw, afterPoll, hb, MDIO_STATUS_POLL_LIMIT]

theorem mdio_phy_write_data_timeout (o : DevOracle) (p d r wv v0 : Nat)
    (hw : ∀ i, o.writeOk i = true)
    (hv0 : o.readVal 0 = some v0) (hc0 : v0 &&& MDIO_CTRL_REQ_BUSY_BIT = 0)
    (h : ∀ i, 1 ≤ i → i < 101 →
      ∃ v, o.readVal i = some v ∧ v &&& MDIO_CTRL_REQ_BUSY_BIT ≠ 0) :
    mdio_phy_write o p d r wv PhyState.init =
      .fail ⟨6, 101, 100, [(MDIO_ADDRESS1_OFFSET, MDIO_ADDR1 MDIO_OP_ADDR p d),
        (MDIO_ADDRESS2_OFFSET, r),
        (MDIO_CTRL_REG_OFFSET, MDIO_CTRL_ENA_BIT ||| MDIO_CTRL_REQ_BUSY_BIT),
        (MDIO_ADDRESS1_OFFSET, MDIO_ADDR1 MDIO_OP_WR p d),
        (MDIO_WRITE_BUF_OFFSET, wv),
        (MDIO_CTRL_REG_OFFSET, MDIO_CTRL_ENA_BIT ||| MDIO_CTRL_REQ_BUSY_BIT)]⟩ true := by
  have ha := mdio_phy_addr_immediate o p d r v0 hw hv0 hc0
  have hb := busyWait_all_busy o 100 1 0 (by
    intro i hi
    simpa using h (1 + i) (by omega) (by omega))
  simp [mdio_phy_write, ha, devWrite, hw, afterPoll, hb, MDIO_STATUS_POLL_LIMIT]

theorem mdio_phy_write_immediate (o : DevOracle) (p d r wv v0 v1 : Nat)
    (hw : ∀ i, o.writeOk i = true)
    (hv0 : o.readVal 0 = some v0) (hc0 : v0 &&& MDIO_CTRL_REQ_BUSY_BIT = 0)
    (hv1 : o.readVal 1 = some v1) (hc1 : v1 &&& MDIO_CTRL_REQ_BUSY_BIT = 0) :
    mdio_phy_write o p d r wv PhyState.init =
      .ok ⟨6, 2, 0, [(MDIO_ADDRESS1_OFFSET, MDIO_ADDR1 MDIO_OP_ADDR p d),
        (MDIO_ADDRESS2_OFFSET, r),
        (MDIO_CTRL_REG_OFFSET, MDIO_CTRL_ENA_BIT ||| MDIO_CTRL_REQ_BUSY_BIT),
        (MDIO_ADDRESS1_OFFSET, MDIO_ADDR1 MDIO_OP_WR p d),
        (MDIO_WRITE_BUF_OFFSET, wv),
        (MDIO_CTRL_REG_OFFSET, MDIO_CTRL_ENA_BIT ||| MDIO_CTRL_REQ_BUSY_BIT)]⟩ := by
  have ha := mdio_phy_addr_immediate o p d r v0 hw hv0 hc0
  have hb := busyWait_first_clear o 1 0 100 v1 (by decide) hv1 hc1
  simp [mdio_phy_write, ha, devWrite, hw, afterPoll, hb, MDIO_STATUS_POLL_LIMIT]

theorem mdio_phy_read_data_timeout (o : DevOracle) (p d r v0 : Nat)
    (hw : ∀ i, o.writeOk i = true)
    (hv0 : o.readVal 0 = some v0) (hc0 : v0 &&& MDIO_CTRL_REQ_BUSY_BIT = 0)
    (h : ∀ i, 1 ≤ i → i < 101 →
      ∃ v, o.readVal i = some v ∧ v &&& MDIO_CTRL_REQ_BUSY_BIT ≠ 0) :
    mdio_phy_read o p d r PhyState.init =
      (.fail ⟨5, 101, 100, [(MDIO_ADDRESS1_OFFSET, MDIO_ADDR1 MDIO_OP_ADDR p d),
        (MDIO_ADDRESS2_OFFSET, r),
        (MDIO_CTRL_REG_OFFSET, MDIO_CTRL_ENA_BIT ||| MDIO_CTRL_REQ_BUSY_BIT),
        (MDIO_ADDRESS1_OFFSET, MDIO_ADDR1 MDIO_OP_RD p d),
        (MDIO_CTRL_REG_OFFSET, MDIO_CTRL_ENA_BIT ||| MDIO_CTRL_REQ_BUSY_BIT)]⟩ true, none) := by
  have ha := mdio_phy_addr_immediate o p d r v0 hw hv0 hc0
  have hb := busyWait_all_busy o 100 1 0 (by
    intro i hi
    simpa using h (1 + i) (by omega) (by omega))
  simp [mdio_phy_read, ha, devWrite, hw, afterPoll, hb, MDIO_STATUS_POLL_LIMIT]

theorem mdio_phy_read_immediate (o : DevOracle) (p d r v0 v1 dv : Nat)
    (hw : ∀ i, o.writeOk i = true)
    (hv0 : o.readVal 0 = some v0) (hc0 : v0 &&& MDIO_CTRL_REQ_BUSY_BIT = 0)
    (hv1 : o.readVal 1 = some v1) (hc1 : v1 &&& MDIO_CTRL_REQ_BUSY_BIT = 0)
    (hv2 : o.readVal 2 = some dv) :
    mdio_phy_read o p d r PhyState.init =
      (.ok ⟨5, 3, 0, [(MDIO_ADDRESS1_OFFSET, MDIO_ADDR1 MDIO_OP_ADDR p d),
        (MDIO_ADDRESS2_OFFSET, r),
        (MDIO_CTRL_REG_OFFSET, MDIO_CTRL_ENA_BIT ||| MDIO_CTRL_REQ_BUSY_BIT),
        (MDIO_ADDRESS1_OFFSET, MDIO_ADDR1 MDIO_OP_RD p d),
        (MDIO_CTRL_REG_OFFSET, MDIO_CTRL_ENA_BIT ||| MDIO_CTRL_REQ_BUSY_BIT)]⟩, some dv) := by
  have ha := mdio_phy_addr_immediate o p d r v0 hw hv0 hc0
  have hb := busyWait_first_clear o 1 0 100 v1 (by decide) hv1 hc1
  simp [mdio_phy_read, ha, devWrite, hw, afterPoll, hb, hv2, MDIO_STATUS_POLL_LIMIT]


/-! # Claim theorems -/

/-- Claim C1, counterexample: with MAC aa:bb:cc:dd:ee:ff the value
written to USR_MAC_HIGH is 0xddccbbaa, not 0xaabbccdd as the claim
states, and a run whose readback delivers exactly the values the claim
calls successful (SYSTEM_MAC_HIGH = 0xaabbccdd, low 16 bits of
SYSTEM_MAC_LOW = 0xeeff) in fact fails with exit 1. -/
theorem c1_mac_words_counterexample :
    (main_run cfg0 .init (envRB (some 0xaabbccdd) (some 0x0000eeff))).exit = 1 ∧
    (main_run cfg0 .init envOk).gbeWrites.head? =
      some (GBE_REG_USR_MAC_HIGH, 0xddccbbaa) ∧
    (0xddccbbaa : Nat) ≠ 0xaabbccdd := by decide

/-- Claim C1, amended: with MAC aa:bb:cc:dd:ee:ff the initialization
writes USR_MAC_HIGH = 0xddccbbaa, USR_MAC_LOW = 0x0000ffee and
USR_MAC_CFG = 1 (octets packed low byte first); the run succeeds (exit
0) exactly when the readback of SYSTEM_MAC_HIGH equals 0xddccbbaa and
the low 16 bits of SYSTEM_MAC_LOW equal 0xffee; any other readback
yields exit 1 with reset re-asserted. -/
theorem c1_mac_words_amended (hi lo : Nat) :
    (main_run cfg0 .init (envRB (some hi) (some lo))).gbeWrites =
      [(GBE_REG_USR_MAC_HIGH, 0xddccbbaa), (GBE_REG_USR_MAC_LOW, 0xffee),
        (GBE_REG_USR_MAC_CFG, 1)] ∧
    ((main_run cfg0 .init (envRB (some hi) (some lo))).exit = 0 ↔
      (hi = 0xddccbbaa ∧ lo &&& 0xffff = 0xffee)) ∧
    (¬(hi = 0xddccbbaa ∧ lo &&& 0xffff = 0xffee) →
      (main_run cfg0 .init (envRB (some hi) (some lo))).exit = 1 ∧
      (main_run cfg0 .init (envRB (some hi) (some lo))).reset = some 1) := by
  have hval : validate_mac_address ([] : List Char) mac0 true = true := by decide
  have hmd : run_mdio_ops okOracle PhyState.init (parse_mdio_writes ([] : List Char)) =
      .ok PhyState.init := by decide
  have hhi : mac_high_regval mac0 = 0xddccbbaa := by decide
  have hlo : mac_low_regval mac0 = 0xffee := by decide
  have hand : (65518 : Nat) &&& 65535 = 65518 := by decide
  simp [main_run, run_init, envRB, cfg0, hval, hmd, hhi, hlo, hand,
    GBE_REG_USR_MAC_HIGH, GBE_REG_USR_MAC_LOW, GBE_REG_USR_MAC_CFG]
  split <;> simp_all <;> omega

/-- Claim C1, witness for the amended theorem: a matching readback
succeeds with exit 0 and a zero readback fails with exit 1 and reset
re-asserted. -/
theorem c1_mac_words_amended_witness :
    (main_run cfg0 .init (envRB (some 0xddccbbaa) (some 0xffee))).exit = 0 ∧
    (main_run cfg0 .init (envRB (some 0) (some 0))).exit = 1 ∧
    (main_run cfg0 .init (envRB (some 0) (some 0))).reset = some 1 :=
  ⟨(c1_mac_words_amended 0xddccbbaa 0xffee).2.1.mpr ⟨rfl, by decide⟩,
    ((c1_mac_words_amended 0 0).2.2 (by decide)).1,
    ((c1_mac_words_amended 0 0).2.2 (by decide)).2⟩

/-- Claim C2: the claim says every failure exits non-zero, but a failed
mapping of the 10GbE register region, and a failed mapping of the MDIO
register region when MDIO writes are configured, print an error and
return exit status 0 (10ginit.cpp lines 159-162 and 171-174). -/
theorem c2_map_failure_exit_code :
    (main_run cfg0 .init envNoGbeMap).exit = 0 ∧
    (main_run cfg0 .init envNoGbeMap).site = some .mapGbe ∧
    (main_run cfgMdio .init envNoMdioMap).exit = 0 ∧
    (main_run cfgMdio .init envNoMdioMap).site = some .mapMdio := by decide

/-- Claim C3, counterexample: an initialization run in which the
post-release readback of SYSTEM_MAC_HIGH fails terminates with a
failure exit while the reset line is NOT asserted (it stays released),
contradicting the claim that every failing run ends with reset
asserted. -/
theorem c3_reset_asserted_counterexample :
    (main_run cfg0 .init (envRB none none)).exit = 1 ∧
    (main_run cfg0 .init (envRB none none)).reset ≠ some 1 := by decide

/-- Claim C3, amended: in an initialization run, every failure before
the reset release terminates with the reset line asserted once the line
has been acquired (failures before the line is acquired leave it
undriven), and a readback mismatch re-asserts reset before the failure
exit; the only failures that terminate with reset released are the two
readback transport errors (failed SYSTEM_MAC_HIGH or SYSTEM_MAC_LOW
read) and a failed re-assert during rollback. -/
theorem c3_reset_on_failure_amended (cfg : Config) (e : Env) (out : RunOut) (s : FailSite)
    (hout : main_run cfg .init e = out) (hs : out.site = some s) :
    out.reset = some 1 ∨
    (out.reset = none ∧
      s ∈ ([.mapGbe, .mapMdio, .gpioPath, .gpioChip, .gpioLine, .i2cOpen, .eepromRead,
        .gpioRequest] : List FailSite)) ∨
    (out.reset = some 0 ∧
      s ∈ ([.readbackHigh, .readbackLow, .rollbackAssert] : List FailSite)) := by
  cases h1 : e.gbeMapOk with
  | false => simp [main_run, h1] at hout; subst hout; simp at hs; subst hs; simp
  | true =>
  by_cases h2 : cfg.mdioCfg ≠ [] ∧ e.mdioMapOk = false
  · simp [main_run, h1, h2] at hout; subst hout; simp at hs; subst hs; simp
  cases h3 : e.realpathOk with
  | false => simp [main_run, h1, h2, h3] at hout; subst hout; simp at hs; subst hs; simp
  | true =>
  cases h4 : e.chipOpenOk with
  | false => simp [main_run, h1, h2, h3, h4] at hout; subst hout; simp at hs; subst hs; simp
  | true =>
  cases h5 : e.lineGetOk with
  | false => simp [main_run, h1, h2, h3, h4, h5] at hout; subst hout; simp at hs; subst hs; simp
  | true =>
  cases h6 : e.i2cOpenOk with
  | false =>
    simp [main_run, h1, h2, h3, h4, h5, h6] at hout; subst hout; simp at hs; subst hs; simp
  | true =>
  by_cases h7 : e.eepromReadN = 6
  case neg =>
    simp [main_run, h1, h2, h3, h4, h5, h6, h7] at hout; subst hout; simp at hs; subst hs; simp
  case pos =>
  rw [show main_run cfg .init e = run_init cfg e e.eepromMac by
    simp [main_run, h1, h2, h3, h4, h5, h6, h7]] at hout
  cases h8 : e.lineReqOk with
  | false => simp [run_init, h8] at hout; subst hout; simp at hs; subst hs; simp
  | true =>
  cases h9 : e.setValOk 0 with
  | false => simp [run_init, h8, h9] at hout; subst hout; simp at hs; subst hs; simp
  | true =>
  cases hmd : run_mdio_ops e.mdio PhyState.init (parse_mdio_writes cfg.mdioCfg) with
  | fail st tf => simp [run_init, h8, h9, hmd] at hout; subst hout; simp at hs; subst hs; simp
  | ok st =>
  cases hv : validate_mac_address cfg.macPfx e.eepromMac true with
  | false => simp [run_init, h8, h9, hmd, hv] at hout; subst hout; simp at hs; subst hs; simp
  | true =>
  cases hw0 : e.gbeWriteOk 0 with
  | false =>
    simp [run_init, h8, h9, hmd, hv, hw0] at hout; subst hout; simp at hs; subst hs; simp
  | true =>
  cases hw1 : e.gbeWriteOk 1 with
  | false =>
    simp [run_init, h8, h9, hmd, hv, hw0, hw1] at hout; subst hout; simp at hs; subst hs; simp
  | true =>
  cases hw2 : e.gbeWriteOk 2 with
  | false =>
    simp [run_init, h8, h9, hmd, hv, hw0, hw1, hw2] at hout
    subst hout; simp at hs; subst hs; simp
  | true =>
  cases hs1 : e.setValOk 1 with
  | false =>
    simp [run_init, h8, h9, hmd, hv, hw0, hw1, hw2, hs1] at hout
    subst hout; simp at hs; subst hs; simp
  | true =>
  cases hr0 : e.gbeReadVal 0 with
  | none =>
    simp [run_init, h8, h9, hmd, hv, hw0, hw1, hw2, hs1, hr0] at hout
    subst hout; simp at hs; subst hs; simp
  | some hi2 =>
  cases hr1 : e.gbeReadVal 1 with
  | none =>
    simp [run_init, h8, h9, hmd, hv, hw0, hw1, hw2, hs1, hr0, hr1] at hout
    subst hout; simp at hs; subst hs; simp
  | some lo2 =>
  simp only [run_init, h8, h9, hmd, hv, hw0, hw1, hw2, hs1, hr0, hr1] at hout
  simp at hout
  split at hout
  · cases hs2 : e.setValOk 2 with
    | false => simp [hs2] at hout; subst hout; simp at hs; subst hs; simp
    | true => simp [hs2] at hout; subst hout; simp at hs; subst hs; simp
  · subst hout; simp at hs

/-- Claim C3, witness for the amended theorem: a run whose reset GPIO
line request fails terminates with the line undriven, which the amended
statement classifies in its second disjunct. -/
theorem c3_reset_on_failure_amended_witness :
    (⟨1, none, [], some .gpioRequest⟩ : RunOut).reset = some 1 ∨
    ((⟨1, none, [], some .gpioRequest⟩ : RunOut).reset = none ∧
      FailSite.gpioRequest ∈ ([.mapGbe, .mapMdio, .gpioPath, .gpioChip, .gpioLine, .i2cOpen,
        .eepromRead, .gpioRequest] : List FailSite)) ∨
    ((⟨1, none, [], some .gpioRequest⟩ : RunOut).reset = some 0 ∧
      FailSite.gpioRequest ∈ ([.readbackHigh, .readbackLow, .rollbackAssert] : List FailSite)) :=
  c3_reset_on_failure_amended cfg0 envNoLineReq ⟨1, none, [], some .gpioRequest⟩ .gpioRequest
    (by decide) rfl

/-- Claim C4: with a non-empty prefix, validate_mac_address returns
false exactly for the all-zero address, the all-ones address, any
address whose first octet has its low bit set, and any address whose
formatted string does not begin with the prefix; with an empty prefix
it returns true for every address. -/
theorem c4_validate_mac_characterization (p : List Char) (m : Mac) (w : Bool) (hm : m.valid) :
    (p = [] → validate_mac_address p m w = true) ∧
    (p ≠ [] →
      (validate_mac_address p m w = false ↔
        (m = ⟨0, 0, 0, 0, 0, 0⟩ ∨ m = ⟨0xff, 0xff, 0xff, 0xff, 0xff, 0xff⟩ ∨
          m.b0 % 2 = 1 ∨ ¬ p <+: formatMacL m))) := by
  constructor
  · intro hp; subst hp; simp [validate_mac_address]
  · intro hp
    have hlen : ¬ p.length = 0 := fun h => hp (List.length_eq_zero.mp h)
    have hz := fmac_eq_00 m hm
    have hf := fmac_eq_ff m hm
    have hodd : (m.b0 &&& 0x01 ≠ 0) ↔ m.b0 % 2 = 1 := by rw [and_one_eq_mod]; omega
    have hpre : (List.take p.length (formatMacL m) = p) ↔ p <+: formatMacL m := by
      rw [List.prefix_iff_eq_take]; exact eq_comm
    unfold validate_mac_address
    rw [if_neg hlen]
    split_ifs with h1 h2 h3 h4
    · exact iff_of_true rfl (Or.inl (hz.mp h1))
    · exact iff_of_true rfl (Or.inr (Or.inl (hf.mp h2)))
    · exact iff_of_true rfl (Or.inr (Or.inr (Or.inl (hodd.mp h3))))
    · exact iff_of_true rfl (Or.inr (Or.inr (Or.inr (fun hc => h4 (hpre.mpr hc)))))
    · refine iff_of_false (by simp) ?_
      rintro (hc | hc | hc | hc)
      · exact h1 (hz.mpr hc)
      · exact h2 (hf.mpr hc)
      · exact h3 (hodd.mpr hc)
      · exact hc (hpre.mp (not_not.mp h4))

/-- Claim C4, witness: the characterization instantiated at the prefix
aa and the address aa:bb:cc:dd:ee:ff. -/
theorem c4_validate_mac_characterization_witness :
    validate_mac_address "aa".data mac0 true = false ↔
      (mac0 = ⟨0, 0, 0, 0, 0, 0⟩ ∨ mac0 = ⟨0xff, 0xff, 0xff, 0xff, 0xff, 0xff⟩ ∨
        mac0.b0 % 2 = 1 ∨ ¬ "aa".data <+: formatMacL mac0) :=
  (c4_validate_mac_characterization "aa".data mac0 true (by decide)).2 (by decide)

/-- Claim C5: parsing the formatted colon-separated lowercase hex
rendering of any 6-byte MAC buffer returns exactly the original bytes. -/
theorem c5_parse_format_roundtrip (m : Mac) (hm : m.valid) :
    parse_mac (formatMacL m) = some m := by
  obtain ⟨b0, b1, b2, b3, b4, b5⟩ := m
  obtain ⟨h0, h1, h2, h3, h4, h5⟩ := hm
  simp [parse_mac, formatMacL, scanOctet_colon, scanOctet_last, expectChar,
    h0, h1, h2, h3, h4, h5]

/-- Claim C5, witness: the round trip at aa:bb:cc:dd:ee:ff. -/
theorem c5_parse_format_roundtrip_witness :
    parse_mac (formatMacL mac0) = some mac0 :=
  c5_parse_format_roundtrip mac0 (by decide)
/-- Claim C6: the busy-poll shared verbatim by the three MDIO phases
times out after exactly MDIO_STATUS_POLL_LIMIT (100) polls when the
busy bit is set on every poll, sleeping once per busy poll, and
succeeds after one poll with zero sleeps when the busy bit is clear on
the first poll; consequently the address phase, the write data phase
and the read data phase each fail with a timeout under an all-busy
control register and each complete without poll sleeps when the busy
bit is clear immediately. -/
theorem c6_mdio_busy_poll_contract (o : DevOracle) (p d r wv : Nat)
    (hw : ∀ i, o.writeOk i = true) :
    (∀ rc s, (∀ i, i < MDIO_STATUS_POLL_LIMIT →
        ∃ v, o.readVal (rc + i) = some v ∧ v &&& MDIO_CTRL_REQ_BUSY_BIT ≠ 0) →
      busyWait o rc MDIO_STATUS_POLL_LIMIT s =
        .timeout (rc + MDIO_STATUS_POLL_LIMIT) (s + MDIO_STATUS_POLL_LIMIT)) ∧
    (∀ rc s v, o.readVal rc = some v → v &&& MDIO_CTRL_REQ_BUSY_BIT = 0 →
      busyWait o rc MDIO_STATUS_POLL_LIMIT s = .cleared (rc + 1) s) ∧
    ((∀ i, i < MDIO_STATUS_POLL_LIMIT →
        ∃ v, o.readVal i = some v ∧ v &&& MDIO_CTRL_REQ_BUSY_BIT ≠ 0) →
      mdio_phy_addr o p d r PhyState.init =
        .fail ⟨3, 100, 100, [(MDIO_ADDRESS1_OFFSET, MDIO_ADDR1 MDIO_OP_ADDR p d),
          (MDIO_ADDRESS2_OFFSET, r),
          (MDIO_CTRL_REG_OFFSET, MDIO_CTRL_ENA_BIT ||| MDIO_CTRL_REQ_BUSY_BIT)]⟩ true) ∧
    (∀ v0, o.readVal 0 = some v0 → v0 &&& MDIO_CTRL_REQ_BUSY_BIT = 0 →
      mdio_phy_addr o p d r PhyState.init =
        .ok ⟨3, 1, 0, [(MDIO_ADDRESS1_OFFSET, MDIO_ADDR1 MDIO_OP_ADDR p d),
          (MDIO_ADDRESS2_OFFSET, r),
          (MDIO_CTRL_REG_OFFSET, MDIO_CTRL_ENA_BIT ||| MDIO_CTRL_REQ_BUSY_BIT)]⟩) ∧
    (∀ v0, o.readVal 0 = some v0 → v0 &&& MDIO_CTRL_REQ_BUSY_BIT = 0 →
      (∀ i, 1 ≤ i → i < 101 → ∃ v, o.readVal i = some v ∧ v &&& MDIO_CTRL_REQ_BUSY_BIT ≠ 0) →
      mdio_phy_write o p d r wv PhyState.init =
        .fail ⟨6, 101, 100, [(MDIO_ADDRESS1_OFFSET, MDIO_ADDR1 MDIO_OP_ADDR p d),
          (MDIO_ADDRESS2_OFFSET, r),
          (MDIO_CTRL_REG_OFFSET, MDIO_CTRL_ENA_BIT ||| MDIO_CTRL_REQ_BUSY_BIT),
          (MDIO_ADDRESS1_OFFSET, MDIO_ADDR1 MDIO_OP_WR p d),
          (MDIO_WRITE_BUF_OFFSET, wv),
          (MDIO_CTRL_REG_OFFSET, MDIO_CTRL_ENA_BIT ||| MDIO_CTRL_REQ_BUSY_BIT)]⟩ true) ∧
    (∀ v0 v1, o.readVal 0 = some v0 → v0 &&& MDIO_CTRL_REQ_BUSY_BIT = 0 →
      o.readVal 1 = some v1 → v1 &&& MDIO_CTRL_REQ_BUSY_BIT = 0 →
      mdio_phy_write o p d r wv PhyState.init =
        .ok ⟨6, 2, 0, [(MDIO_ADDRESS1_OFFSET, MDIO_ADDR1 MDIO_OP_ADDR p d),
          (MDIO_ADDRESS2_OFFSET, r),
          (MDIO_CTRL_REG_OFFSET, MDIO_CTRL_ENA_BIT ||| MDIO_CTRL_REQ_BUSY_BIT),
          (MDIO_ADDRESS1_OFFSET, MDIO_ADDR1 MDIO_OP_WR p d),
          (MDIO_WRITE_BUF_OFFSET, wv),
          (MDIO_CTRL_REG_OFFSET, MDIO_CTRL_ENA_BIT ||| MDIO_CTRL_REQ_BUSY_BIT)]⟩) ∧
    (∀ v0, o.readVal 0 = some v0 → v0 &&& MDIO_CTRL_REQ_BUSY_BIT = 0 →
      (∀ i, 1 ≤ i → i < 101 → ∃ v, o.readVal i = some v ∧ v &&& MDIO_CTRL_REQ_BUSY_BIT ≠ 0) →
      mdio_phy_read o p d r PhyState.init =
        (.fail ⟨5, 101, 100, [(MDIO_ADDRESS1_OFFSET, MDIO_ADDR1 MDIO_OP_ADDR p d),
          (MDIO_ADDRESS2_OFFSET, r),
          (MDIO_CTRL_REG_OFFSET, MDIO_CTRL_ENA_BIT ||| MDIO_CTRL_REQ_BUSY_BIT),
          (MDIO_ADDRESS1_OFFSET, MDIO_ADDR1 MDIO_OP_RD p d),
          (MDIO_CTRL_REG_OFFSET, MDIO_CTRL_ENA_BIT ||| MDIO_CTRL_REQ_BUSY_BIT)]⟩ true, none)) ∧
    (∀ v0 v1 dv, o.readVal 0 = some v0 → v0 &&& MDIO_CTRL_REQ_BUSY_BIT = 0 →
      o.readVal 1 = some v1 → v1 &&& MDIO_CTRL_REQ_BUSY_BIT = 0 → o.readVal 2 = some dv →
      mdio_phy_read o p d r PhyState.init =
        (.ok ⟨5, 3, 0, [(MDIO_ADDRESS1_OFFSET, MDIO_ADDR1 MDIO_OP_ADDR p d),
          (MDIO_ADDRESS2_OFFSET, r),
          (MDIO_CTRL_REG_OFFSET, MDIO_CTRL_ENA_BIT ||| MDIO_CTRL_REQ_BUSY_BIT),
          (MDIO_ADDRESS1_OFFSET, MDIO_ADDR1 MDIO_OP_RD p d),
          (MDIO_CTRL_REG_OFFSET, MDIO_CTRL_ENA_BIT ||| MDIO_CTRL_REQ_BUSY_BIT)]⟩, some dv)) :=
  ⟨fun rc s h => busyWait_all_busy o MDIO_STATUS_POLL_LIMIT rc s h,
    fun rc s v hv hc => busyWait_first_clear o rc s MDIO_STATUS_POLL_LIMIT v (by decide) hv hc,
    fun h => mdio_phy_addr_timeout o p d r hw h,
    fun v0 hv hc => mdio_phy_addr_immediate o p d r v0 hw hv hc,
    fun v0 hv hc h => mdio_phy_write_data_timeout o p d r wv v0 hw hv hc h,
    fun v0 v1 hv0 hc0 hv1 hc1 => mdio_phy_write_immediate o p d r wv v0 v1 hw hv0 hc0 hv1 hc1,
    fun v0 hv hc h => mdio_phy_read_data_timeout o p d r v0 hw hv hc h,
    fun v0 v1 dv hv0 hc0 hv1 hc1 hv2 =>
      mdio_phy_read_immediate o p d r v0 v1 dv hw hv0 hc0 hv1 hc1 hv2⟩

/-- Claim C6, witness: the contract applied to a device whose reads are
always busy (timeout after 100 polls and 100 sleeps) and to a device
whose reads are immediately clear (success with zero poll sleeps for
all three phases). -/
theorem c6_mdio_busy_poll_contract_witness :
    busyWait busyOracle 0 MDIO_STATUS_POLL_LIMIT 0 = .timeout 100 100 ∧
    busyWait okOracle 0 MDIO_STATUS_POLL_LIMIT 0 = .cleared 1 0 ∧
    mdio_phy_addr busyOracle 0 1 0x8000 PhyState.init =
      .fail ⟨3, 100, 100, [(MDIO_ADDRESS1_OFFSET, MDIO_ADDR1 MDIO_OP_ADDR 0 1),
        (MDIO_ADDRESS2_OFFSET, 0x8000),
        (MDIO_CTRL_REG_OFFSET, MDIO_CTRL_ENA_BIT ||| MDIO_CTRL_REQ_BUSY_BIT)]⟩ true ∧
    mdio_phy_write okOracle 0 1 0x8000 0x4000 PhyState.init =
      .ok ⟨6, 2, 0, [(MDIO_ADDRESS1_OFFSET, MDIO_ADDR1 MDIO_OP_ADDR 0 1),
        (MDIO_ADDRESS2_OFFSET, 0x8000),
        (MDIO_CTRL_REG_OFFSET, MDIO_CTRL_ENA_BIT ||| MDIO_CTRL_REQ_BUSY_BIT),
        (MDIO_ADDRESS1_OFFSET, MDIO_ADDR1 MDIO_OP_WR 0 1),
        (MDIO_WRITE_BUF_OFFSET, 0x4000),
        (MDIO_CTRL_REG_OFFSET, MDIO_CTRL_ENA_BIT ||| MDIO_CTRL_REQ_BUSY_BIT)]⟩ ∧
    mdio_phy_read okOracle 0 1 0x8000 PhyState.init =
      (.ok ⟨5, 3, 0, [(MDIO_ADDRESS1_OFFSET, MDIO_ADDR1 MDIO_OP_ADDR 0 1),
        (MDIO_ADDRESS2_OFFSET, 0x8000),
        (MDIO_CTRL_REG_OFFSET, MDIO_CTRL_ENA_BIT ||| MDIO_CTRL_REQ_BUSY_BIT),
        (MDIO_ADDRESS1_OFFSET, MDIO_ADDR1 MDIO_OP_RD 0 1),
        (MDIO_CTRL_REG_OFFSET, MDIO_CTRL_ENA_BIT ||| MDIO_CTRL_REQ_BUSY_BIT)]⟩, some 0) := by
  have hB := c6_mdio_busy_poll_contract busyOracle 0 1 0x8000 0x4000 (fun _ => rfl)
  have hO := c6_mdio_busy_poll_contract okOracle 0 1 0x8000 0x4000 (fun _ => rfl)
  refine ⟨?_, ?_, ?_, ?_, ?_⟩
  · have h := hB.1 0 0 (fun i _ => ⟨1, rfl, by decide⟩)
    simpa [MDIO_STATUS_POLL_LIMIT] using h
  · have h := hO.2.1 0 0 0 rfl (by decide)
    simpa using h
  · exact hB.2.2.1 (fun i _ => ⟨1, rfl, by decide⟩)
  · exact hO.2.2.2.2.2.1 0 0 rfl (by decide) rfl (by decide)
  · exact hO.2.2.2.2.2.2.2 0 0 0 rfl (by decide) rfl (by decide) rfl

/-- Claim C7: the configuration string 0.1:8000=4000 0.1:8001=0 parses
to exactly the two operations, in configuration order. -/
theorem c7_parse_mdio_config_two_ops :
    parse_mdio_writes "0.1:8000=4000 0.1:8001=0".data =
      [⟨0, 1, 0x8000, 0x4000⟩, ⟨0, 1, 0x8001, 0x0⟩] := by decide

/-- Claim C8: a malformed token truncates the parsed sequence at the
first unparsable token with no error signal (the return type of
parse_mdio_writes carries no error channel): 0.1:8000=4000 garbage
parses to exactly one operation. -/
theorem c8_parse_mdio_config_truncation :
    parse_mdio_writes "0.1:8000=4000 garbage".data = [⟨0, 1, 0x8000, 0x4000⟩] := by decide

/-- Claim C9: the MDIO address-word packing is (opcode mod 4) shifted
left 10 plus (port mod 32) shifted left 5 plus (device mod 32) for all
inputs; the configuration parser accepts out-of-range port values
without a range check (33 parses as 33), and such values are reduced
modulo 32 at transaction time (port 33 packs identically to port 1). -/
theorem c9_mdio_addr1_mod_packing :
    (∀ op p d : Nat,
      MDIO_ADDR1 op p d = (op % 4) * 2 ^ 10 + (p % 32) * 2 ^ 5 + d % 32) ∧
    parse_mdio_writes "33.1:0=0".data = [⟨33, 1, 0, 0⟩] ∧
    MDIO_ADDR1 0 33 1 = MDIO_ADDR1 0 1 1 := by
  refine ⟨fun op p d => ?_, by decide, by decide⟩
  simp [MDIO_ADDR1, Nat.shiftLeft_eq, and_three_eq_mod, and_thirtyone_eq_mod]

/-- Claim C10: with all resource acquisitions succeeding, a first EEPROM
read that fails or returns fewer than 6 bytes aborts the run with exit 1
before the action dispatch, identically for every action; in particular
the store action fails on an unreadable EEPROM even though the value
read is overwritten before use on that path. -/
theorem c10_eeprom_read_gates_all_actions (cfg : Config) (act : Action) (e : Env)
    (h1 : e.gbeMapOk = true) (h2 : e.mdioMapOk = true) (h3 : e.realpathOk = true)
    (h4 : e.chipOpenOk = true) (h5 : e.lineGetOk = true) (h6 : e.i2cOpenOk = true)
    (h7 : e.eepromReadN ≠ 6) :
    main_run cfg act e = ⟨1, none, [], some .eepromRead⟩ := by
  unfold main_run
  simp [h1, h2, h3, h4, h5, h6, h7]

/-- Claim C10, witness: a store run with an EEPROM read returning 0
bytes fails with exit 1 at the EEPROM read, before the store path
touches the value. -/
theorem c10_eeprom_read_gates_all_actions_witness :
    main_run cfg0 (.store "aa:bb:cc:dd:ee:ff".data) envNoEeprom =
      ⟨1, none, [], some .eepromRead⟩ :=
  c10_eeprom_read_gates_all_actions cfg0 (.store "aa:bb:cc:dd:ee:ff".data) envNoEeprom
    rfl rfl rfl rfl rfl rfl (by decide)

end TenGInit
